import Mathlib

/-!
Shallow embedding of content-generation-agent/tools.py: image generation,
video generation with its fixed-interval polling loop, artifact
persistence, and the GCS upload/download helpers.  Strings manipulated by
Python str.replace are modelled as lists of characters; the remote
generation service, the remote object store and the uuid source are oracle
parameters.  Effects (artifact saves, bucket writes, log lines, sleeps)
are returned explicitly as logs.
-/

/-- Byte strings, as lists of byte values. -/
abbrev Bytes := List Nat

/-- google.genai types.Blob: inline bytes plus a mime type. -/
structure Blob where
  byteData : Bytes
  mimeType : String
deriving DecidableEq

/-- google.genai types.MediaPart: may carry inline data. -/
structure MediaPart where
  inlineData : Option Blob
deriving DecidableEq

/-- The ADK artifact store visible through a ToolContext: the list of saved
(filename, part) pairs, in save order. -/
structure ArtifactStore where
  saved : List (String × MediaPart)
deriving DecidableEq

/-- tool_context.save_artifact: append the new (filename, part) entry. -/
def saveArtifact (ctx : ArtifactStore) (filename : String) (p : MediaPart) : ArtifactStore :=
  ⟨ctx.saved ++ [(filename, p)]⟩

/-- tool_context.load_artifact: the most recently saved part under the name,
if any. -/
def loadArtifact (ctx : ArtifactStore) (filename : String) : Option MediaPart :=
  (ctx.saved.reverse.find? (fun e => e.1 == filename)).map (fun e => e.2)

/-- tools.py MODEL_IMAGE constant. -/
def MODEL_IMAGE : String := "imagen-4.0-generate-preview-05-20"

/-- tools.py MODEL_VIDEO constant. -/
def MODEL_VIDEO : String := "veo-2.0-generate-preview"

/-- One generated image of the remote response (types.GeneratedImage). -/
structure GeneratedImage where
  image_bytes : Bytes
deriving DecidableEq

/-- Remote response of client.models.generate_images. -/
structure ImageResponse where
  generated_images : List GeneratedImage
deriving DecidableEq

/-- The status dict returned by generate_image. -/
structure ImageResult where
  status : String
  detail : String
  filename : Option String
deriving DecidableEq

/-- generate_image from tools.py.  The remote call is modelled by its
response; freshName stands for the uuid.uuid4() value drawn in the call.
Returns the result dict and the artifact store after the call. -/
def generate_image (response : ImageResponse) (freshName : String) (ctx : ArtifactStore) :
    ImageResult × ArtifactStore :=
  match response.generated_images with
  | [] => (⟨"failed", "Image generation failed.", none⟩, ctx)
  | img :: _ =>
    let filename := freshName ++ ".png"
    (⟨"success", "Image generated successfully and stored in artifacts.", some filename⟩,
      saveArtifact ctx filename ⟨some ⟨img.image_bytes, "image/png"⟩⟩)

/-- Python str prefix test, on character lists. -/
def startsWithL : List Char → List Char → Bool
  | [], _ => true
  | _ :: _, [] => false
  | p :: ps, c :: cs => p == c && startsWithL ps cs

/-- Python substring containment (pat in s), on character lists. -/
def occursIn (pat : List Char) : List Char → Bool
  | [] => pat.isEmpty
  | c :: cs => startsWithL pat (c :: cs) || occursIn pat cs

/-- Python str.replace(pat, ""): remove the leftmost occurrence of pat,
then continue after it; non-overlapping, left to right.  Fuel-indexed so
the recursion is structural; fuel = length of the scanned string suffices
because every step consumes at least one character. -/
def removeAllFuel (pat : List Char) : Nat → List Char → List Char
  | _, [] => []
  | 0, s => s
  | Nat.succ n, c :: cs =>
    if !pat.isEmpty && startsWithL pat (c :: cs) then
      removeAllFuel pat n (List.drop pat.length (c :: cs))
    else
      c :: removeAllFuel pat n cs

/-- Python s.replace(pat, ""). -/
def removeAll (pat s : List Char) : List Char := removeAllFuel pat s.length s

/-- The "gs://" scheme stripped by the bucket-name normalizations in
generate_video and upload_image_to_gcs. -/
def gsScheme : List Char := "gs://".data

/-- The bucket-relative path derivation of generate_video:
video_uri.replace(bucket, "")[1:]. -/
def derivePath (bucket uri : List Char) : List Char := List.drop 1 (removeAll bucket uri)

/-- A generated video's remote location (types.Video). -/
structure Video where
  uri : List Char
deriving DecidableEq

/-- One generated video of the operation result (types.GeneratedVideo). -/
structure GeneratedVideo where
  video : Video
deriving DecidableEq

/-- Result payload of a completed video operation. -/
structure VideoResponse where
  generated_videos : List GeneratedVideo
deriving DecidableEq

/-- A long-running operation handle: a completion flag and, when the remote
job produced one, a response payload. -/
structure Operation where
  done : Bool
  response : Option VideoResponse
deriving DecidableEq

/-- The request generate_video submits to client.models.generate_videos:
model name, prompt, optional conditioning-image location, and the
GenerateVideosConfig fields. -/
structure VideoRequest where
  modelName : String
  prompt : String
  image : Option (List Char)
  aspect_ratio : String
  number_of_videos : Nat
  output_gcs_uri : List Char
  negative_prompt : String
deriving DecidableEq

/-- Construction of the submitted request in generate_video.  When a
non-empty existing_image_filename is given, the conditioning image's
gcs_uri is the f-string BUCKET/existing_image_filename. -/
def buildVideoRequest (bucket : List Char) (video_prompt : String) (number_of_videos : Nat)
    (aspect_ratio negative_prompt existing_image_filename : String) : VideoRequest :=
  ⟨MODEL_VIDEO, video_prompt,
    if existing_image_filename = "" then none
    else some (bucket ++ '/' :: existing_image_filename.data),
    aspect_ratio, number_of_videos, bucket, negative_prompt⟩

/-- The status dict returned by generate_video on success. -/
structure VideoResult where
  status : String
  detail : String
  filename : String
deriving DecidableEq

/-- How a generate_video call ends: the polling loop never observes done
(the loop never exits), the Python NameError when the response carries no
videos (the loop variable filename is unbound at the return), the implicit
None return when the operation has no response, or the success dict. -/
inductive VideoOutcome where
  | diverges
  | nameErr
  | retNone
  | success (r : VideoResult)
deriving DecidableEq

/-- A finished generate_video call: its outcome, the artifact store after
the call, and the list of sleep durations performed by the polling loop. -/
structure VideoCallResult where
  outcome : VideoOutcome
  ctx : ArtifactStore
  sleeps : List Nat
deriving DecidableEq

/-- The polling loop of generate_video: while not operation.done, sleep 10
then re-fetch.  fetches lists the successive results of
client.operations.get; none means the loop is still running when the
listed fetches are exhausted (the loop has no timeout).  On exit, returns
the final operation and the sleeps performed. -/
def poll : Operation → List Operation → Option (Operation × List Nat)
  | op, [] => if op.done then some (op, []) else none
  | op, o :: os =>
    if op.done then some (op, [])
    else (poll o os).map (fun p => (p.1, 10 :: p.2))

/-- The persistence loop of generate_video: for each generated video,
derive the bucket-relative path from its uri, download the bytes, draw a
fresh name, save the artifact with media type video/mp4, and remember the
loop variable filename.  The Option String threads the last value bound to
filename (none when the loop body never ran). -/
def persistVideos (bucket : List Char) (download : List Char → List Char → Bytes)
    (freshNames : Nat → String) :
    ArtifactStore → Nat → Option String → List GeneratedVideo → ArtifactStore × Option String
  | ctx, _, last, [] => (ctx, last)
  | ctx, i, _, v :: vs =>
    let filename := freshNames i ++ ".mp4"
    let video_bytes := download (removeAll gsScheme bucket) (derivePath bucket v.video.uri)
    persistVideos bucket download freshNames
      (saveArtifact ctx filename ⟨some ⟨video_bytes, "video/mp4"⟩⟩) (i + 1) (some filename) vs

/-- generate_video from tools.py.  bucket is os.environ BUCKET; submit is
the remote generate_videos call (request to initial operation handle);
fetches are the successive client.operations.get results; download is
download_blob_from_gcs (bucket name, blob name to bytes); freshNames is
the uuid.uuid4() stream. -/
def generate_video (bucket : List Char) (video_prompt : String) (number_of_videos : Nat)
    (aspect_ratio negative_prompt existing_image_filename : String)
    (submit : VideoRequest → Operation) (fetches : List Operation)
    (download : List Char → List Char → Bytes) (freshNames : Nat → String)
    (ctx : ArtifactStore) : VideoCallResult :=
  let req := buildVideoRequest bucket video_prompt number_of_videos aspect_ratio
      negative_prompt existing_image_filename
  match poll (submit req) fetches with
  | none => ⟨VideoOutcome.diverges, ctx, []⟩
  | some (op, sleeps) =>
    match op.response with
    | none => ⟨VideoOutcome.retNone, ctx, sleeps⟩
    | some resp =>
      match persistVideos bucket download freshNames ctx 0 none resp.generated_videos with
      | (ctx2, none) => ⟨VideoOutcome.nameErr, ctx2, sleeps⟩
      | (ctx2, some filename) =>
        ⟨VideoOutcome.success
            ⟨"success", "Video generated successfully and stored in artifacts.", filename⟩,
          ctx2, sleeps⟩

/-- One blob.upload_from_string call observed on the remote object store. -/
structure GcsBlobWrite where
  bucket : List Char
  blobName : String
  contentType : String
  byteData : Bytes
deriving DecidableEq

/-- A finished upload_image_to_gcs call: the bucket writes it performed,
the log lines it emitted, and its return string. -/
structure UploadOutcome where
  writes : List GcsBlobWrite
  logs : List String
  ret : List Char
deriving DecidableEq

/-- The success log line of upload_image_to_gcs. -/
def loadOkMsg (filename : String) : String :=
  " --- Successfully loaded latest ADK artifact " ++ filename ++ " --- "

/-- The failure log line of upload_image_to_gcs. -/
def loadFailMsg (filename : String) : String :=
  " --- Failed to load ADK artifact " ++ filename ++ ". --- "

/-- upload_image_to_gcs from tools.py: normalize the bucket name by
replacing the scheme away, load the artifact, upload its inline bytes when
present (logging otherwise), and return the gs:// address in every case. -/
def upload_image_to_gcs (filename : String) (ctx : ArtifactStore) (gcs_bucket : List Char) :
    UploadOutcome :=
  let bkt := removeAll gsScheme gcs_bucket
  let retAddr := gsScheme ++ bkt ++ '/' :: filename.data
  match loadArtifact ctx filename with
  | some p =>
    match p.inlineData with
    | some blob => ⟨[⟨bkt, filename, "image/png", blob.byteData⟩], [loadOkMsg filename], retAddr⟩
    | none => ⟨[], [loadFailMsg filename], retAddr⟩
  | none => ⟨[], [loadFailMsg filename], retAddr⟩

/-- The junction region of the joined conditioning reference: the last
character of the bucket root, the separating slash, and the first
character of the filename. -/
def junction (bucketRoot fname : List Char) : List Char :=
  (match bucketRoot.getLast? with
   | some c => [c]
   | none => ([] : List Char)) ++ '/' :: fname.take 1

theorem removeAllFuel_congr (pat : List Char) :
    ∀ (f1 f2 : Nat) (s : List Char), s.length ≤ f1 → s.length ≤ f2 →
      removeAllFuel pat f1 s = removeAllFuel pat f2 s := by
  intro f1
  induction f1 with
  | zero =>
    intro f2 s h1 _
    have hs : s = [] := List.eq_nil_of_length_eq_zero (Nat.le_zero.mp h1)
    subst hs
    cases f2 <;> rfl
  | succ n ih =>
    intro f2 s h1 h2
    cases s with
    | nil => cases f2 <;> rfl
    | cons c cs =>
      cases f2 with
      | zero => simp at h2
      | succ m =>
        have hcs1 : cs.length ≤ n := by simp at h1; omega
        have hcs2 : cs.length ≤ m := by simp at h2; omega
        simp only [removeAllFuel]
        by_cases hc : (!pat.isEmpty && startsWithL pat (c :: cs)) = true
        · rw [if_pos hc, if_pos hc]
          have hplen : 1 ≤ pat.length := by
            cases pat
            · simp at hc
            · simp
          have hd : (List.drop pat.length (c :: cs)).length ≤ cs.length := by
            simp only [List.length_drop, List.length_cons]
            omega
          exact ih m _ (le_trans hd hcs1) (le_trans hd hcs2)
        · rw [if_neg hc, if_neg hc]
          exact congrArg (c :: ·) (ih m cs hcs1 hcs2)

theorem removeAll_cons (pat : List Char) (c : Char) (cs : List Char) :
    removeAll pat (c :: cs) =
      if !pat.isEmpty && startsWithL pat (c :: cs) then
        removeAll pat (List.drop pat.length (c :: cs))
      else c :: removeAll pat cs := by
  show removeAllFuel pat (c :: cs).length (c :: cs) = _
  simp only [List.length_cons, removeAllFuel]
  by_cases hc : (!pat.isEmpty && startsWithL pat (c :: cs)) = true
  · rw [if_pos hc, if_pos hc]
    apply removeAllFuel_congr
    · have hplen : 1 ≤ pat.length := by
        cases pat
        · simp at hc
        · simp
      simp only [List.length_drop, List.length_cons]
      omega
    · exact le_refl _
  · rw [if_neg hc, if_neg hc]
    rfl

theorem removeAll_not_occurs (pat : List Char) :
    ∀ s, occursIn pat s = false → removeAll pat s = s := by
  intro s
  induction s with
  | nil => intro _; rfl
  | cons c cs ih =>
    intro h
    simp only [occursIn, Bool.or_eq_false_iff] at h
    rw [removeAll_cons, if_neg (by simp [h.1]), ih h.2]

theorem startsWithL_self_append (l t : List Char) : startsWithL l (l ++ t) = true := by
  induction l with
  | nil => rfl
  | cons p ps ih => simp [startsWithL, ih]

theorem removeAll_self_append (pat r : List Char) (h : pat ≠ []) :
    removeAll pat (pat ++ r) = removeAll pat r := by
  cases pat with
  | nil => exact absurd rfl h
  | cons p ps =>
    have hs : ((p :: ps) ++ r) = p :: (ps ++ r) := rfl
    rw [hs, removeAll_cons, if_pos (by simp [startsWithL, startsWithL_self_append])]
    have hd : List.drop (p :: ps).length (p :: (ps ++ r)) = r := by
      simp only [List.length_cons, List.drop_succ_cons]
      exact List.drop_left ps r
    rw [hd]

theorem poll_spec :
    ∀ (fetches : List Operation) (op f : Operation) (sleeps : List Nat),
      poll op fetches = some (f, sleeps) →
      f.done = true ∧ sleeps = List.replicate sleeps.length 10 ∧
      (op :: fetches).getD sleeps.length ⟨false, none⟩ = f ∧
      ∀ j, j < sleeps.length → ((op :: fetches).getD j ⟨true, none⟩).done = false := by
  intro fetches
  induction fetches with
  | nil =>
    intro op f sleeps h
    simp only [poll] at h
    by_cases hd : op.done
    · rw [if_pos hd] at h
      obtain ⟨h1, h2⟩ := Prod.mk.injEq .. ▸ (Option.some.injEq .. ▸ h)
      subst h1
      subst h2
      exact ⟨hd, rfl, rfl, fun j hj => by simp at hj⟩
    · rw [if_neg hd] at h
      simp at h
  | cons o os ih =>
    intro op f sleeps h
    simp only [poll] at h
    by_cases hd : op.done
    · rw [if_pos hd] at h
      obtain ⟨h1, h2⟩ := Prod.mk.injEq .. ▸ (Option.some.injEq .. ▸ h)
      subst h1
      subst h2
      exact ⟨hd, rfl, rfl, fun j hj => by simp at hj⟩
    · rw [if_neg hd] at h
      obtain ⟨⟨f2, sl2⟩, hp, heq⟩ := Option.map_eq_some'.mp h
      obtain ⟨h1, h2⟩ := Prod.mk.injEq .. ▸ heq
      subst h1
      subst h2
      obtain ⟨hdone, hrep, hgd, hnd⟩ := ih o f2 sl2 hp
      refine ⟨hdone, ?_, ?_, ?_⟩
      · simp only [List.length_cons, List.replicate_succ]
        exact congrArg (10 :: ·) hrep
      · simpa using hgd
      · intro j hj
        cases j with
        | zero =>
          simpa using Bool.not_eq_true op.done ▸ hd
        | succ k =>
          have hk : k < sl2.length := by simp at hj; omega
          simpa using hnd k hk

theorem persist_saved_length (bucket : List Char) (download : List Char → List Char → Bytes)
    (freshNames : Nat → String) :
    ∀ (vs : List GeneratedVideo) (ctx : ArtifactStore) (i : Nat) (last : Option String),
      ((persistVideos bucket download freshNames ctx i last vs).1).saved.length
        = ctx.saved.length + vs.length := by
  intro vs
  induction vs with
  | nil => intro ctx i last; rfl
  | cons v vs ih =>
    intro ctx i last
    have hstep := ih (saveArtifact ctx (freshNames i ++ ".mp4")
        ⟨some ⟨download (removeAll gsScheme bucket) (derivePath bucket v.video.uri),
          "video/mp4"⟩⟩) (i + 1) (some (freshNames i ++ ".mp4"))
    simp only [persistVideos]
    rw [hstep]
    simp [saveArtifact]
    omega

theorem persist_last (bucket : List Char) (download : List Char → List Char → Bytes)
    (freshNames : Nat → String) :
    ∀ (vs : List GeneratedVideo) (ctx : ArtifactStore) (i : Nat) (last : Option String),
      vs ≠ [] →
      ∃ (fname : String) (p : MediaPart),
        (persistVideos bucket download freshNames ctx i last vs).2 = some fname ∧
        ((persistVideos bucket download freshNames ctx i last vs).1).saved.getLast?
          = some (fname, p) := by
  intro vs
  induction vs with
  | nil => intro ctx i last h; exact absurd rfl h
  | cons v vs ih =>
    intro ctx i last _
    cases vs with
    | nil =>
      refine ⟨freshNames i ++ ".mp4",
        ⟨some ⟨download (removeAll gsScheme bucket) (derivePath bucket v.video.uri),
          "video/mp4"⟩⟩, rfl, ?_⟩
      show (saveArtifact ctx (freshNames i ++ ".mp4") _).saved.getLast? = _
      simp [saveArtifact]
    | cons w ws =>
      exact ih (saveArtifact ctx (freshNames i ++ ".mp4")
        ⟨some ⟨download (removeAll gsScheme bucket) (derivePath bucket v.video.uri),
          "video/mp4"⟩⟩) (i + 1) (some (freshNames i ++ ".mp4")) (by simp)

/-- Claim C1: the polling loop of generate_video waits a fixed 10-unit
interval and re-fetches while the handle reports not-done, and exits at
the first operation state that reports done (first conjunct, via poll);
for a mock handle that reports not-done twice and then done with a
response, generate_video performs exactly two 10-unit waits and persists
exactly one artifact per generated video of the response (second
conjunct). -/
theorem claim_c1_polling_loop :
    (∀ (op : Operation) (fetches : List Operation) (f : Operation) (sleeps : List Nat),
        poll op fetches = some (f, sleeps) →
        f.done = true ∧ sleeps = List.replicate sleeps.length 10 ∧
        (op :: fetches).getD sleeps.length ⟨false, none⟩ = f ∧
        ∀ j, j < sleeps.length → ((op :: fetches).getD j ⟨true, none⟩).done = false) ∧
    (∀ (bucket : List Char) (video_prompt aspect_ratio negative_prompt : String)
        (number_of_videos : Nat) (resp : VideoResponse)
        (download : List Char → List Char → Bytes) (freshNames : Nat → String)
        (ctx : ArtifactStore),
        (generate_video bucket video_prompt number_of_videos aspect_ratio negative_prompt
            ("") (fun _ => ⟨false, none⟩) [⟨false, none⟩, ⟨true, some resp⟩]
            download freshNames ctx).sleeps = [10, 10] ∧
        ((generate_video bucket video_prompt number_of_videos aspect_ratio negative_prompt
            ("") (fun _ => ⟨false, none⟩) [⟨false, none⟩, ⟨true, some resp⟩]
            download freshNames ctx).ctx).saved.length
          = ctx.saved.length + resp.generated_videos.length) := by
  constructor
  · intro op fetches f sleeps h
    exact poll_spec fetches op f sleeps h
  · intro bucket video_prompt aspect_ratio negative_prompt number_of_videos resp
      download freshNames ctx
    have hlen := persist_saved_length bucket download freshNames resp.generated_videos ctx 0 none
    rcases hp : persistVideos bucket download freshNames ctx 0 none resp.generated_videos
      with ⟨ctx2, last⟩
    rw [hp] at hlen
    cases last with
    | none => exact ⟨by simp [generate_video, poll, hp], by simpa [generate_video, poll, hp] using hlen⟩
    | some fn => exact ⟨by simp [generate_video, poll, hp], by simpa [generate_video, poll, hp] using hlen⟩

/-- Witness for claim C1: the poll exit property at a handle that is done
immediately, and the mock scenario (not-done, not-done, done with one
video) performing two 10-unit waits and persisting one artifact. -/
theorem claim_c1_polling_loop_witness :
    (Operation.mk true (some ⟨[]⟩)).done = true ∧
    (generate_video ("gs://b".data) ("p") 1 ("16:9") ("") ("")
        (fun _ => ⟨false, none⟩)
        [⟨false, none⟩, ⟨true, some ⟨[⟨⟨"gs://b/v.mp4".data⟩⟩]⟩⟩]
        (fun _ _ => [7]) (fun _ => "vid") ⟨[]⟩).sleeps = [10, 10] ∧
    ((generate_video ("gs://b".data) ("p") 1 ("16:9") ("") ("")
        (fun _ => ⟨false, none⟩)
        [⟨false, none⟩, ⟨true, some ⟨[⟨⟨"gs://b/v.mp4".data⟩⟩]⟩⟩]
        (fun _ _ => [7]) (fun _ => "vid") ⟨[]⟩).ctx).saved.length
      = (ArtifactStore.mk []).saved.length
        + (VideoResponse.mk [⟨⟨"gs://b/v.mp4".data⟩⟩]).generated_videos.length :=
  ⟨(claim_c1_polling_loop.1 ⟨true, some ⟨[]⟩⟩ [] ⟨true, some ⟨[]⟩⟩ [] rfl).1,
    (claim_c1_polling_loop.2 ("gs://b".data) ("p") ("16:9") ("") 1
      ⟨[⟨⟨"gs://b/v.mp4".data⟩⟩]⟩ (fun _ _ => [7]) (fun _ => "vid") ⟨[]⟩).1,
    (claim_c1_polling_loop.2 ("gs://b".data) ("p") ("16:9") ("") 1
      ⟨[⟨⟨"gs://b/v.mp4".data⟩⟩]⟩ (fun _ _ => [7]) (fun _ => "vid") ⟨[]⟩).2⟩

/-- Claim C2, behavior of the code at the failing input: when the
operation completes (done) with no response, generate_video falls off the
end of the function — the outcome is the implicit None return, not a
structured failure result — and no artifact is written. -/
theorem claim_c2_no_response_behavior :
    (generate_video ("gs://b".data) ("p") 1 ("16:9") ("") ("")
        (fun _ => ⟨true, none⟩) [] (fun _ _ => []) (fun _ => "v") ⟨[]⟩).outcome
      = VideoOutcome.retNone ∧
    ((generate_video ("gs://b".data) ("p") 1 ("16:9") ("") ("")
        (fun _ => ⟨true, none⟩) [] (fun _ _ => []) (fun _ => "v") ⟨[]⟩).ctx).saved = [] :=
  ⟨rfl, rfl⟩

/-- Claim C3, behavior of the code at the failing input: an upload call
for a filename with no artifact-store entry still returns the
success-shaped address string, performs no bucket write, and only logs the
failure — it does not return a failure indicator. -/
theorem claim_c3_missing_artifact_behavior :
    (upload_image_to_gcs ("abc.png") ⟨[]⟩ ("gs://bucket".data)).ret
      = ("gs://bucket/abc.png".data) ∧
    (upload_image_to_gcs ("abc.png") ⟨[]⟩ ("gs://bucket".data)).writes = [] ∧
    (upload_image_to_gcs ("abc.png") ⟨[]⟩ ("gs://bucket".data)).logs
      = [loadFailMsg ("abc.png")] :=
  ⟨rfl, rfl, rfl⟩

/-- Claim C4: when the loaded artifact is missing or carries no inline
data, upload_image_to_gcs performs no bucket write, logs the failure, and
still returns the address gs:// normalized-bucket / filename — the same
return value the call produces for any artifact-store state. -/
theorem claim_c4_upload_failure_frame (filename : String) (ctx : ArtifactStore)
    (gcs_bucket : List Char)
    (h : loadArtifact ctx filename = none ∨
        ∃ p : MediaPart, loadArtifact ctx filename = some p ∧ p.inlineData = none) :
    (upload_image_to_gcs filename ctx gcs_bucket).writes = [] ∧
    (upload_image_to_gcs filename ctx gcs_bucket).logs = [loadFailMsg filename] ∧
    (upload_image_to_gcs filename ctx gcs_bucket).ret
      = gsScheme ++ removeAll gsScheme gcs_bucket ++ '/' :: filename.data ∧
    ∀ ctx2 : ArtifactStore, (upload_image_to_gcs filename ctx2 gcs_bucket).ret
      = (upload_image_to_gcs filename ctx gcs_bucket).ret := by
  have hret : ∀ c : ArtifactStore, (upload_image_to_gcs filename c gcs_bucket).ret
      = gsScheme ++ removeAll gsScheme gcs_bucket ++ '/' :: filename.data := by
    intro c
    rcases hl : loadArtifact c filename with _ | p
    · simp [upload_image_to_gcs, hl]
    · rcases hpi : p.inlineData with _ | b <;> simp [upload_image_to_gcs, hl, hpi]
  rcases h with h | ⟨p, hp, hpi⟩
  · exact ⟨by simp [upload_image_to_gcs, h], by simp [upload_image_to_gcs, h],
      hret ctx, fun ctx2 => (hret ctx2).trans (hret ctx).symm⟩
  · exact ⟨by simp [upload_image_to_gcs, hp, hpi], by simp [upload_image_to_gcs, hp, hpi],
      hret ctx, fun ctx2 => (hret ctx2).trans (hret ctx).symm⟩

/-- Witness for claim C4: uploading a filename absent from an empty
artifact store writes nothing, logs the failure, and returns the computed
address. -/
theorem claim_c4_upload_failure_frame_witness :
    (upload_image_to_gcs ("abc.png") ⟨[]⟩ ("gs://b".data)).writes = [] ∧
    (upload_image_to_gcs ("abc.png") ⟨[]⟩ ("gs://b".data)).logs = [loadFailMsg ("abc.png")] ∧
    (upload_image_to_gcs ("abc.png") ⟨[]⟩ ("gs://b".data)).ret
      = gsScheme ++ removeAll gsScheme ("gs://b".data) ++ '/' :: ("abc.png").data ∧
    ∀ ctx2 : ArtifactStore, (upload_image_to_gcs ("abc.png") ctx2 ("gs://b".data)).ret
      = (upload_image_to_gcs ("abc.png") ⟨[]⟩ ("gs://b".data)).ret :=
  claim_c4_upload_failure_frame ("abc.png") ⟨[]⟩ ("gs://b".data) (Or.inl rfl)

/-- Claim C5: when the remote response contains at least one generated
image, generate_image persists exactly one artifact, whose media type is
image/png and whose filename is the fresh name plus ".png" (hence ends in
".png"), and returns a success result carrying that filename. -/
theorem claim_c5_image_success (resp : ImageResponse) (freshName : String)
    (ctx : ArtifactStore) (img : GeneratedImage) (rest : List GeneratedImage)
    (h : resp.generated_images = img :: rest) :
    (generate_image resp freshName ctx).1.status = "success" ∧
    (generate_image resp freshName ctx).1.filename = some (freshName ++ ".png") ∧
    (∃ stem : String, (generate_image resp freshName ctx).1.filename
      = some (stem ++ ".png")) ∧
    ((generate_image resp freshName ctx).2).saved
      = ctx.saved ++ [(freshName ++ ".png", ⟨some ⟨img.image_bytes, "image/png"⟩⟩)] := by
  unfold generate_image
  rw [h]
  exact ⟨rfl, rfl, ⟨freshName, rfl⟩, rfl⟩

/-- Witness for claim C5: a response with one 3-byte image yields a
success result with filename img.png and appends that single artifact. -/
theorem claim_c5_image_success_witness :
    (generate_image ⟨[⟨[1, 2, 3]⟩]⟩ ("img") ⟨[]⟩).1.status = "success" ∧
    (generate_image ⟨[⟨[1, 2, 3]⟩]⟩ ("img") ⟨[]⟩).1.filename = some ("img" ++ ".png") ∧
    (∃ stem : String, (generate_image ⟨[⟨[1, 2, 3]⟩]⟩ ("img") ⟨[]⟩).1.filename
      = some (stem ++ ".png")) ∧
    ((generate_image ⟨[⟨[1, 2, 3]⟩]⟩ ("img") ⟨[]⟩).2).saved
      = (ArtifactStore.mk []).saved
        ++ [("img" ++ ".png", ⟨some ⟨(GeneratedImage.mk [1, 2, 3]).image_bytes,
          "image/png"⟩⟩)] :=
  claim_c5_image_success ⟨[⟨[1, 2, 3]⟩]⟩ ("img") ⟨[]⟩ ⟨[1, 2, 3]⟩ [] rfl

/-- Claim C6: when the remote response contains zero generated images,
generate_image returns a result whose status is failed and leaves the
artifact store unchanged; the function returns normally (no exception path
exists for this condition). -/
theorem claim_c6_image_empty (resp : ImageResponse) (freshName : String)
    (ctx : ArtifactStore) (h : resp.generated_images = []) :
    (generate_image resp freshName ctx).1.status = "failed" ∧
    (generate_image resp freshName ctx).2 = ctx := by
  unfold generate_image
  rw [h]
  exact ⟨rfl, rfl⟩

/-- Witness for claim C6: an empty response yields status failed and an
unchanged store. -/
theorem claim_c6_image_empty_witness :
    (generate_image ⟨[]⟩ ("img") ⟨[]⟩).1.status = "failed" ∧
    (generate_image ⟨[]⟩ ("img") ⟨[]⟩).2 = (⟨[]⟩ : ArtifactStore) :=
  claim_c6_image_empty ⟨[]⟩ ("img") ⟨[]⟩ rfl

/-- Counterexample to claim C7 as stated: with bucket root gs://b/ (a
configured bucket ending in a slash) and seed filename a.png, the
submitted conditioning reference is bucket + "/" + filename, but its
joined portion (last bucket character, separator, first filename
character) contains a double slash. -/
theorem claim_c7_counterexample :
    (buildVideoRequest ("gs://b/".data) ("p") 1 ("16:9") ("") ("a.png")).image
      = some ("gs://b//a.png".data) ∧
    junction ("gs://b/".data) (("a.png").data) = ['/', '/', 'a'] ∧
    occursIn ['/', '/'] (junction ("gs://b/".data) (("a.png").data)) = true := by
  refine ⟨?_, rfl, by decide⟩
  rfl

/-- Claim C7 amended: for a non-empty seed-image filename the submitted
conditioning reference equals bucket root + "/" + filename; when the
bucket root does not end in "/" and the filename does not start with "/",
the joined portion contains no double slash. -/
theorem claim_c7_amended (bucket : List Char)
    (video_prompt aspect_ratio negative_prompt : String) (number_of_videos : Nat)
    (fname : String) (h : fname ≠ "")
    (hb : bucket.getLast? ≠ some '/') (hf : fname.data.head? ≠ some '/') :
    (buildVideoRequest bucket video_prompt number_of_videos aspect_ratio negative_prompt
        fname).image = some (bucket ++ '/' :: fname.data) ∧
    occursIn ['/', '/'] (junction bucket fname.data) = false := by
  constructor
  · simp [buildVideoRequest, h]
  · unfold junction
    rcases hgb : bucket.getLast? with _ | c
    · rcases hfd : fname.data with _ | ⟨x, xs⟩
      · decide
      · have hx : ¬('/' = x) := by
          intro e
          rw [hfd] at hf
          exact hf (by rw [e]; simp)
        simp [occursIn, startsWithL, hx]
    · have hc : ¬('/' = c) := by
        intro e
        rw [hgb] at hb
        exact hb (by rw [e])
      rcases hfd : fname.data with _ | ⟨x, xs⟩
      · simp [occursIn, startsWithL, hc]
      · have hx : ¬('/' = x) := by
          intro e
          rw [hfd] at hf
          exact hf (by rw [e]; simp)
        simp [occursIn, startsWithL, hc, hx]

/-- Witness for amended claim C7: bucket gs://b and filename a.png give
the joined reference with a clean junction. -/
theorem claim_c7_amended_witness :
    (buildVideoRequest ("gs://b".data) ("p") 1 ("16:9") ("") ("a.png")).image
      = some (("gs://b".data) ++ '/' :: ("a.png").data) ∧
    occursIn ['/', '/'] (junction ("gs://b".data) (("a.png").data)) = false :=
  claim_c7_amended ("gs://b".data) ("p") ("16:9") ("") 1 ("a.png")
    (by decide) (by decide) (by decide)

/-- Counterexample to claim C8 as stated: the string gs:gs://// does not
start with the gs:// scheme (it is already unprefixed in that sense), yet
normalization changes it — removing the inner occurrence joins the
surrounding characters into a new gs:// — and applying the normalization
twice differs from applying it once. -/
theorem claim_c8_counterexample :
    startsWithL gsScheme ("gs:gs:////".data) = false ∧
    removeAll gsScheme ("gs:gs:////".data) = ("gs://".data) ∧
    removeAll gsScheme ("gs:gs:////".data) ≠ ("gs:gs:////".data) ∧
    removeAll gsScheme (removeAll gsScheme ("gs:gs:////".data))
      ≠ removeAll gsScheme ("gs:gs:////".data) := by
  exact ⟨by decide, by decide, by decide, by decide⟩

/-- Claim C8 amended: on bucket name strings containing no occurrence of
gs:// (in particular every already-unprefixed name in that sense), the
normalization returns the string unchanged, and on such strings applying
it twice equals applying it once; full idempotence fails because removal
can splice a new gs:// occurrence together. -/
theorem claim_c8_amended (s : List Char) (h : occursIn gsScheme s = false) :
    removeAll gsScheme s = s ∧
    removeAll gsScheme (removeAll gsScheme s) = removeAll gsScheme s := by
  have h1 := removeAll_not_occurs gsScheme s h
  refine ⟨h1, ?_⟩
  rw [h1]
  exact h1

/-- Witness for amended claim C8: the unprefixed name my-bucket is left
unchanged by one and by two normalizations. -/
theorem claim_c8_amended_witness :
    removeAll gsScheme ("my-bucket".data) = ("my-bucket".data) ∧
    removeAll gsScheme (removeAll gsScheme ("my-bucket".data))
      = removeAll gsScheme ("my-bucket".data) :=
  claim_c8_amended ("my-bucket".data) (by decide)

/-- Claim C9: when a video-generation call succeeds (the poll exits on an
operation carrying a response with at least one generated video), the
returned structured result carries the single filename field set to the
name of the last artifact persisted in that call, with status success,
even when several videos were generated and several artifacts written. -/
theorem claim_c9_last_filename (bucket : List Char)
    (video_prompt aspect_ratio negative_prompt existing_image_filename : String)
    (number_of_videos : Nat) (submit : VideoRequest → Operation)
    (fetches : List Operation) (download : List Char → List Char → Bytes)
    (freshNames : Nat → String) (ctx : ArtifactStore) (op : Operation)
    (sleeps : List Nat) (resp : VideoResponse)
    (hpoll : poll (submit (buildVideoRequest bucket video_prompt number_of_videos
        aspect_ratio negative_prompt existing_image_filename)) fetches
      = some (op, sleeps))
    (hresp : op.response = some resp) (hvs : resp.generated_videos ≠ []) :
    ∃ r : VideoResult,
      (generate_video bucket video_prompt number_of_videos aspect_ratio negative_prompt
          existing_image_filename submit fetches download freshNames ctx).outcome
        = VideoOutcome.success r ∧
      r.status = "success" ∧
      ∃ p : MediaPart,
        ((generate_video bucket video_prompt number_of_videos aspect_ratio negative_prompt
            existing_image_filename submit fetches download freshNames ctx).ctx).saved.getLast?
          = some (r.filename, p) := by
  obtain ⟨fname, p, h2, hlast⟩ :=
    persist_last bucket download freshNames resp.generated_videos ctx 0 none hvs
  rcases hpv : persistVideos bucket download freshNames ctx 0 none resp.generated_videos
    with ⟨ctx2, last⟩
  rw [hpv] at h2 hlast
  simp only at h2
  subst h2
  refine ⟨⟨"success", "Video generated successfully and stored in artifacts.", fname⟩,
    ?_, rfl, p, ?_⟩
  · simp [generate_video, hpoll, hresp, hpv]
  · simp only [generate_video, hpoll, hresp, hpv]
    exact hlast

/-- Witness for claim C9: an immediately done operation with two videos
yields a success result naming the last saved artifact. -/
theorem claim_c9_last_filename_witness :
    ∃ r : VideoResult,
      (generate_video ("gs://b".data) ("p") 2 ("16:9") ("") ("")
          (fun _ => ⟨true, some ⟨[⟨⟨"gs://b/v1.mp4".data⟩⟩, ⟨⟨"gs://b/v2.mp4".data⟩⟩]⟩⟩)
          [] (fun _ _ => [7]) (fun i => "vid" ++ toString i) ⟨[]⟩).outcome
        = VideoOutcome.success r ∧
      r.status = "success" ∧
      ∃ p : MediaPart,
        ((generate_video ("gs://b".data) ("p") 2 ("16:9") ("") ("")
            (fun _ => ⟨true, some ⟨[⟨⟨"gs://b/v1.mp4".data⟩⟩, ⟨⟨"gs://b/v2.mp4".data⟩⟩]⟩⟩)
            [] (fun _ _ => [7]) (fun i => "vid" ++ toString i) ⟨[]⟩).ctx).saved.getLast?
          = some (r.filename, p) :=
  claim_c9_last_filename ("gs://b".data) ("p") ("16:9") ("") ("") 2
    (fun _ => ⟨true, some ⟨[⟨⟨"gs://b/v1.mp4".data⟩⟩, ⟨⟨"gs://b/v2.mp4".data⟩⟩]⟩⟩)
    [] (fun _ _ => [7]) (fun i => "vid" ++ toString i) ⟨[]⟩
    ⟨true, some ⟨[⟨⟨"gs://b/v1.mp4".data⟩⟩, ⟨⟨"gs://b/v2.mp4".data⟩⟩]⟩⟩ []
    ⟨[⟨⟨"gs://b/v1.mp4".data⟩⟩, ⟨⟨"gs://b/v2.mp4".data⟩⟩]⟩ rfl rfl (by simp)

/-- Claim C10: the bucket-relative path derivation before download is a
total function: when the URI equals the bucket exactly the remainder is
empty and the derivation yields the empty string rather than an error;
removal applies to every occurrence of the bucket string, not only a
leading one (third conjunct shows two non-leading occurrences removed);
and in the common case bucket/rest the derivation returns rest. -/
theorem claim_c10_derive_path (bucket rest : List Char) (hne : bucket ≠ [])
    (hocc : occursIn bucket ('/' :: rest) = false) :
    derivePath bucket bucket = [] ∧
    derivePath bucket (bucket ++ '/' :: rest) = rest ∧
    removeAll ['o'] ['x', 'o', 'y', 'o'] = ['x', 'y'] := by
  refine ⟨?_, ?_, by decide⟩
  · unfold derivePath
    have h2 := removeAll_self_append bucket [] hne
    rw [List.append_nil] at h2
    rw [h2]
    rfl
  · unfold derivePath
    rw [removeAll_self_append bucket ('/' :: rest) hne,
      removeAll_not_occurs bucket ('/' :: rest) hocc]
    rfl

/-- Witness for claim C10: with bucket gs://b and remainder v.mp4 the
derivation is total and returns v.mp4; on the bucket itself it returns the
empty string. -/
theorem claim_c10_derive_path_witness :
    derivePath ("gs://b".data) ("gs://b".data) = [] ∧
    derivePath ("gs://b".data) (("gs://b".data) ++ '/' :: ("v.mp4".data)) = ("v.mp4".data) ∧
    removeAll ['o'] ['x', 'o', 'y', 'o'] = ['x', 'y'] :=
  claim_c10_derive_path ("gs://b".data) ("v.mp4".data) (by decide) (by decide)
